import Mathlib

/-!
Shallow embedding of `src/backend/main.py` (quick-mcp-client): the MCP server
registry (`ServerManager`), the chat orchestrator (`ChatManager.chat`) and the
HTTP endpoint wrapper `api_add_server`.

External collaborators (the MCP subprocess behind an `MCPServer`, the OpenAI
completion API, `json.loads`) are modelled as explicit oracle values/functions:
an `MCPServer` carries the outcome its live process would produce for
`list_tools` and `call_tool` at this instant, and `chat` receives the LLM
completion function and the JSON parser as arguments.  Python's in-place
mutation of `self.sessions` is modelled by always returning the updated
`ChatManager` state next to the `Except` outcome, so mutations that survive a
raised exception are visible.
-/

set_option autoImplicit false

/-- A JSON value (Python's `dict`/`list`/scalars as passed around by the code). -/
inductive Json where
  | null : Json
  | bool (b : Bool) : Json
  | num (n : Int) : Json
  | str (s : String) : Json
  | arr (xs : List Json) : Json
  | obj (fields : List (String × Json)) : Json
deriving Repr

mutual
/-- Decidable equality on `Json` (nested recursion through lists). -/
def Json.beq : Json → Json → Bool
  | .null, .null => true
  | .bool a, .bool b => a == b
  | .num a, .num b => a == b
  | .str a, .str b => a == b
  | .arr xs, .arr ys => Json.beqList xs ys
  | .obj xs, .obj ys => Json.beqObj xs ys
  | _, _ => false

/-- List equality for `Json.beq`. -/
def Json.beqList : List Json → List Json → Bool
  | [], [] => true
  | x :: xs, y :: ys => Json.beq x y && Json.beqList xs ys
  | _, _ => false

/-- Field-list equality for `Json.beq`. -/
def Json.beqObj : List (String × Json) → List (String × Json) → Bool
  | [], [] => true
  | (k, v) :: xs, (l, w) :: ys => k == l && Json.beq v w && Json.beqObj xs ys
  | _, _ => false
end

mutual
theorem Json.beq_refl : ∀ j : Json, Json.beq j j = true
  | .null => rfl
  | .bool b => by simp [Json.beq]
  | .num n => by simp [Json.beq]
  | .str s => by simp [Json.beq]
  | .arr xs => by simpa [Json.beq] using Json.beqList_refl xs
  | .obj xs => by simpa [Json.beq] using Json.beqObj_refl xs

theorem Json.beqList_refl : ∀ xs : List Json, Json.beqList xs xs = true
  | [] => rfl
  | x :: xs => by
      simp only [Json.beqList, Bool.and_eq_true]
      exact ⟨Json.beq_refl x, Json.beqList_refl xs⟩

theorem Json.beqObj_refl : ∀ xs : List (String × Json), Json.beqObj xs xs = true
  | [] => rfl
  | (k, v) :: xs => by
      simp only [Json.beqObj, Bool.and_eq_true]
      exact ⟨⟨by simp, Json.beq_refl v⟩, Json.beqObj_refl xs⟩
end

mutual
theorem Json.eq_of_beq : ∀ {a b : Json}, Json.beq a b = true → a = b
  | .null, .null, _ => rfl
  | .null, .bool _, h | .null, .num _, h | .null, .str _, h | .null, .arr _, h
  | .null, .obj _, h => by simp [Json.beq] at h
  | .bool _, .null, h | .bool _, .num _, h | .bool _, .str _, h | .bool _, .arr _, h
  | .bool _, .obj _, h => by simp [Json.beq] at h
  | .bool a, .bool b, h => by simp [Json.beq] at h; simp [h]
  | .num _, .null, h | .num _, .bool _, h | .num _, .str _, h | .num _, .arr _, h
  | .num _, .obj _, h => by simp [Json.beq] at h
  | .num a, .num b, h => by simp [Json.beq] at h; simp [h]
  | .str _, .null, h | .str _, .bool _, h | .str _, .num _, h | .str _, .arr _, h
  | .str _, .obj _, h => by simp [Json.beq] at h
  | .str a, .str b, h => by simp [Json.beq] at h; simp [h]
  | .arr _, .null, h | .arr _, .bool _, h | .arr _, .num _, h | .arr _, .str _, h
  | .arr _, .obj _, h => by simp [Json.beq] at h
  | .arr xs, .arr ys, h => by
      simp only [Json.beq] at h
      exact congrArg Json.arr (Json.eqList_of_beq h)
  | .obj _, .null, h | .obj _, .bool _, h | .obj _, .num _, h | .obj _, .str _, h
  | .obj _, .arr _, h => by simp [Json.beq] at h
  | .obj xs, .obj ys, h => by
      simp only [Json.beq] at h
      exact congrArg Json.obj (Json.eqObj_of_beq h)

theorem Json.eqList_of_beq : ∀ {xs ys : List Json}, Json.beqList xs ys = true → xs = ys
  | [], [], _ => rfl
  | [], _ :: _, h => by simp [Json.beqList] at h
  | _ :: _, [], h => by simp [Json.beqList] at h
  | x :: xs, y :: ys, h => by
      simp only [Json.beqList, Bool.and_eq_true] at h
      rw [Json.eq_of_beq h.1, Json.eqList_of_beq h.2]

theorem Json.eqObj_of_beq :
    ∀ {xs ys : List (String × Json)}, Json.beqObj xs ys = true → xs = ys
  | [], [], _ => rfl
  | [], _ :: _, h => by simp [Json.beqObj] at h
  | _ :: _, [], h => by simp [Json.beqObj] at h
  | (k, v) :: xs, (l, w) :: ys, h => by
      simp only [Json.beqObj, Bool.and_eq_true] at h
      obtain ⟨⟨hk, hv⟩, hrest⟩ := h
      rw [show k = l by simpa using hk, Json.eq_of_beq hv, Json.eqObj_of_beq hrest]
end

instance : DecidableEq Json := fun a b =>
  if h : Json.beq a b = true then
    .isTrue (Json.eq_of_beq h)
  else
    .isFalse (fun he => h (he ▸ Json.beq_refl a))

/-! ## Data model (`ServerConfig`, `ToolInfo`, errors) -/

/-- The `ServerConfig` pydantic model: name, command, args, optional env overrides. -/
structure ServerConfig where
  name : String
  command : String
  args : List String
  env : Option (List (String × String)) := none
deriving DecidableEq, Repr

/-- The `ToolInfo` pydantic model: tool name, description and its input schema
(a JSON dictionary, per the `Dict[str, Any]` annotation). -/
structure ToolInfo where
  name : String
  description : String
  input_schema : List (String × Json)
deriving DecidableEq, Repr

/-- A `fastapi.HTTPException`: a status code and a detail string. -/
structure HTTPException where
  status_code : Nat
  detail : String
deriving DecidableEq, Repr

/-- A Python exception as the code distinguishes them: `fastapi.HTTPException`,
`openai.BadRequestError` (the one exception class `chat` catches specially),
a JSON decode failure from `json.loads`, or any other exception
(represented by its message). -/
inductive PyError where
  | http (e : HTTPException) : PyError
  | badRequest (msg : String) : PyError
  | jsonDecode (msg : String) : PyError
  | generic (msg : String) : PyError
deriving DecidableEq, Repr

/-- Rendering `str(e)` for the exceptions above (FastAPI renders an `HTTPException`
as `"{status_code}: {detail}"`). -/
def PyError.toMessage : PyError → String
  | .http e => toString e.status_code ++ ": " ++ e.detail
  | .badRequest m => m
  | .jsonDecode m => m
  | .generic m => m

/-! ## `MCPServer` and `ServerManager` (registry) -/

/-- One `MCPServer` wrapper, abstracted over the live subprocess behind it:
`listToolsResult` is the outcome `await self.list_tools()` would produce right
now (the normalised `List ToolInfo`, or the exception it raises), and
`callToolResult` is the outcome of `await self.call_tool name arguments`. -/
structure MCPServer where
  listToolsResult : Except PyError (List ToolInfo)
  callToolResult : String → Json → Except PyError Json

/-- The `ServerManager` state: `self.servers`, a `Dict[str, MCPServer]` modelled as an
insertion-ordered association list (Python dicts preserve insertion order). -/
structure ServerManager where
  servers : List (String × MCPServer)

/-- Collect `await server.list_tools()` over a server list in order, extending
an accumulator, and propagating the first exception — the loop body of
`ServerManager.list_tools` for the all-servers case has no `try`/`except`. -/
def collectTools : List (String × MCPServer) → Except PyError (List ToolInfo)
  | [] => .ok []
  | (_, server) :: rest =>
    match server.listToolsResult with
    | .error e => .error e
    | .ok tools =>
      match collectTools rest with
      | .error e => .error e
      | .ok more => .ok (tools ++ more)

/-- Method `ServerManager.list_tools()` with no `name` argument: concatenate every
server's current tool list; any server's exception propagates. -/
def ServerManager.listToolsAll (sm : ServerManager) : Except PyError (List ToolInfo) :=
  collectTools sm.servers

/-- Method `ServerManager.list_tools(name)` with a server name: look the server up
(404 if absent) and return its own list. -/
def ServerManager.listToolsFor (sm : ServerManager) (name : String) :
    Except PyError (List ToolInfo) :=
  match sm.servers.lookup name with
  | none => .error (.http ⟨404, "Server not found"⟩)
  | some server => server.listToolsResult

/-- Method `ServerManager.call_tool`: scan servers in registry order; a server whose
`list_tools` raises is skipped (`except Exception: continue`); delegate to the
first server whose tool list contains the name; otherwise raise 404. -/
def callToolScan (tool_name : String) (arguments : Json) :
    List (String × MCPServer) → Except PyError Json
  | [] =>
    .error (.http ⟨404, "Tool '" ++ tool_name ++ "' not found on any server"⟩)
  | (_, server) :: rest =>
    match server.listToolsResult with
    | .error _ => callToolScan tool_name arguments rest
    | .ok tools =>
      if tools.any (fun t => t.name = tool_name) then
        server.callToolResult tool_name arguments
      else
        callToolScan tool_name arguments rest

/-- Method `ServerManager.call_tool(tool_name, arguments)`. -/
def ServerManager.call_tool (sm : ServerManager) (tool_name : String)
    (arguments : Json) : Except PyError Json :=
  callToolScan tool_name arguments sm.servers

/-- Lifecycle side effects performed on an `MCPServer` during `add_server`:
an attempted `server.start()` and an attempted cleanup `server.stop()`. -/
inductive SrvAction where
  | startAttempted (name : String) : SrvAction
  | stopAttempted (name : String) : SrvAction
deriving DecidableEq, Repr

/-- Method `ServerManager.add_server(config)`.  `startOutcome` is what
`await server.start()` would do for this config: either the started server
(its behaviour as an oracle) or the exception raised.  Returns the registry
after the call (the code mutates `self.servers` only on success), the
lifecycle actions performed, and the call's outcome. -/
def ServerManager.add_server (sm : ServerManager) (config : ServerConfig)
    (startOutcome : Except PyError MCPServer) :
    ServerManager × List SrvAction × Except HTTPException Unit :=
  if sm.servers.any (fun p => p.1 = config.name) then
    (sm, [], .error ⟨400, "Server already exists"⟩)
  else
    match startOutcome with
    | .ok server =>
      (⟨sm.servers ++ [(config.name, server)]⟩, [.startAttempted config.name], .ok ())
    | .error e =>
      (sm, [.startAttempted config.name, .stopAttempted config.name],
        .error ⟨500, "Error starting server '" ++ config.name ++ "': " ++ e.toMessage⟩)

/-- The `POST /servers` endpoint `api_add_server`: `try` the add, and rewrap
any exception `e` (including the registry's own `HTTPException`s) as
`HTTPException(500, f"Error adding server: {e}")`. -/
def api_add_server (sm : ServerManager) (conf : ServerConfig)
    (startOutcome : Except PyError MCPServer) :
    ServerManager × Except HTTPException String :=
  match sm.add_server conf startOutcome with
  | (sm2, _, .ok ()) => (sm2, .ok "ok")
  | (sm2, _, .error e) =>
    (sm2, .error ⟨500, "Error adding server: " ++ (PyError.http e).toMessage⟩)

/-! ## Chat data model (`ChatRequest`, transcript messages, LLM collaborator) -/

/-- The `ChatRequest` pydantic model. -/
structure ChatRequest where
  session_id : Option String := none
  message : String
deriving DecidableEq, Repr

/-- The `ChatResponse` pydantic model. -/
structure ChatResponse where
  session_id : String
  response : String
  function_call_name : Option String := none
  function_call_arguments : Option Json := none
deriving DecidableEq, Repr

/-- One transcript entry: a `{"role": ..., "content": ...}` dict, with the
optional `"name"` key used by `"function"` messages. -/
structure Message where
  role : String
  content : String
  name : Option String := none
deriving DecidableEq, Repr

/-- The `function_call` part of an OpenAI completion message: a function name
and its arguments as a raw string that still has to go through `json.loads`. -/
structure FunctionCall where
  name : String
  arguments : String
deriving DecidableEq, Repr

/-- The message `resp.choices[0].message` of an OpenAI completion: optional text content
and an optional `function_call`. -/
structure LLMMessage where
  content : Option String := none
  function_call : Option FunctionCall := none
deriving DecidableEq, Repr

/-- One entry of the `functions` list sent to the completions API. -/
structure FunctionDef where
  name : String
  description : String
  parameters : Json
deriving DecidableEq, Repr

/-- The OpenAI completions collaborator: given the transcript and the optional
`functions` list (`none` models a call made without the `functions` argument),
it returns the completion message or raises. -/
abbrev LLMOracle := List Message → Option (List FunctionDef) → Except PyError LLMMessage

mutual
/-- Python `json.dumps` over our JSON values (default separators). -/
def Json.dumps : Json → String
  | .null => "null"
  | .bool true => "true"
  | .bool false => "false"
  | .num n => toString n
  | .str s => "\"" ++ s ++ "\""
  | .arr xs => "[" ++ Json.dumpsList xs ++ "]"
  | .obj fs => "\x7b" ++ Json.dumpsObj fs ++ "\x7d"

/-- Comma-joined rendering of a JSON array's elements. -/
def Json.dumpsList : List Json → String
  | [] => ""
  | [x] => Json.dumps x
  | x :: xs => Json.dumps x ++ ", " ++ Json.dumpsList xs

/-- Comma-joined rendering of a JSON object's fields. -/
def Json.dumpsObj : List (String × Json) → String
  | [] => ""
  | [(k, v)] => "\"" ++ k ++ "\": " ++ Json.dumps v
  | (k, v) :: fs => "\"" ++ k ++ "\": " ++ Json.dumps v ++ ", " ++ Json.dumpsObj fs
end

/-- The `tools_desc` string: the `"\n".join(f"{t.name}: {t.description}" ...)` line list. -/
def toolsDesc (tools : List ToolInfo) : String :=
  String.intercalate "\n" (tools.map (fun t => t.name ++ ": " ++ t.description))

/-- The `system_msg` string built at the top of every `chat` call. -/
def systemMsg (tools : List ToolInfo) : String :=
  "You are a helpful assistant with access to these tools:\n"
  ++ toolsDesc tools ++ "\n\n"
  ++ "When you need to use a tool, always call it immediately without asking for user confirmation. "
  ++ "Respond ONLY with a JSON object matching the function call in the exact format below, and nothing else:\n"
  ++ "\x7b\n"
  ++ "    \"tool\": \"tool-name\",\n"
  ++ "    \"arguments\": \x7b /* argument names and values */ \x7d\n"
  ++ "\x7d\n"
  ++ "Do not output any descriptive text when invoking a tool. After the tool runs, continue the conversation naturally."

/-- The `ChatManager` state: `self.sessions`, a dict from session id to its transcript
(`{"messages": [...]}`), as an insertion-ordered association list. -/
structure ChatManager where
  sessions : List (String × List Message)

/-- Apply `f` to the transcript stored under `sid` (dict update in place). -/
def updateSession (sessions : List (String × List Message)) (sid : String)
    (f : List Message → List Message) : List (String × List Message) :=
  sessions.map (fun p => if p.1 = sid then (p.1, f p.2) else p)

/-- The update `self.sessions[sid]["messages"][0]["content"] = system_msg`. -/
def refreshSystem (system_msg : String) : List Message → List Message
  | [] => []
  | m :: rest => { m with content := system_msg } :: rest

/-- The session seeding step of `chat`: create the session with the system
message if `sid` is new, otherwise overwrite the existing system message. -/
def seedSessions (sessions : List (String × List Message)) (sid system_msg : String) :
    List (String × List Message) :=
  if sessions.any (fun p => p.1 = sid) then
    updateSession sessions sid (refreshSystem system_msg)
  else
    sessions ++ [(sid, [{ role := "system", content := system_msg }])]

/-- Sessions after the seeding step plus the appended user message
(`session["messages"].append({"role": "user", "content": req.message})`). -/
def sessionsAfterUser (sessions : List (String × List Message))
    (sid system_msg userText : String) : List (String × List Message) :=
  updateSession (seedSessions sessions sid system_msg) sid
    (fun ms => ms ++ [{ role := "user", content := userText }])

/-- The transcript currently stored under `sid`. -/
def sessionMessages (sessions : List (String × List Message)) (sid : String) :
    List Message :=
  (sessions.lookup sid).getD []

/-- Append the assistant's final reply to a session's transcript. -/
def appendAssistant (sessions : List (String × List Message)) (sid content : String) :
    List (String × List Message) :=
  updateSession sessions sid (fun ms => ms ++ [{ role := "assistant", content := content }])

/-- The empty-object fallback schema substituted for malformed tool schemas. -/
def emptyObjectSchema : Json :=
  Json.obj [("type", Json.str "object"), ("properties", Json.obj []), ("required", Json.arr [])]

/-- The per-tool body of the `functions_defs` loop: pass `t.input_schema`
through when it has `"type": "object"` and a `"properties"` key, else
substitute `emptyObjectSchema`.  (`t.input_schema or {}` and the
`isinstance(raw_schema, dict)` test are identities at this type: the pydantic
field is always a dict, and an empty dict is replaced by an empty dict.) -/
def buildFunctionDef (t : ToolInfo) : FunctionDef :=
  let raw_schema := t.input_schema
  let params :=
    if raw_schema.lookup "type" == some (Json.str "object")
        && (raw_schema.lookup "properties").isSome then
      Json.obj raw_schema
    else
      emptyObjectSchema
  { name := t.name, description := t.description, parameters := params }

/-- Method `ChatManager.chat(req)`.  `llm` is the OpenAI completions collaborator,
`json_loads` the standard-library JSON parser for the model's raw argument
string, and `freshId` the `uuid4()` value used when `req.session_id` is
absent.  The first component of the result is `self.sessions` after the call
— Python mutates the dict in place, so mutations made before a raised
exception survive; the second component is the returned `ChatResponse` or the
exception that escaped `chat`. -/
def ChatManager.chat (cm : ChatManager) (sm : ServerManager) (llm : LLMOracle)
    (json_loads : String → Except PyError Json) (freshId : String)
    (req : ChatRequest) : ChatManager × Except PyError ChatResponse :=
  let sid := req.session_id.getD freshId
  match sm.listToolsAll with
  | .error e => (cm, .error e)
  | .ok tools =>
    let system_msg := systemMsg tools
    let sessions2 := sessionsAfterUser cm.sessions sid system_msg req.message
    match sm.listToolsAll with
    | .error e => (⟨sessions2⟩, .error e)
    | .ok tools2 =>
      let functions_defs := tools2.map buildFunctionDef
      let msgs := sessionMessages sessions2 sid
      match llm msgs (some functions_defs) with
      | .error (.badRequest _) =>
        -- "Invalid function schema; retry without functions"
        match llm msgs none with
        | .error e => (⟨sessions2⟩, .error e)
        | .ok message =>
          -- use_functions = False: the tool branch is skipped
          let content := message.content.getD ""
          (⟨appendAssistant sessions2 sid content⟩, .ok { session_id := sid, response := content })
      | .error e => (⟨sessions2⟩, .error e)
      | .ok message =>
        match message.function_call with
        | none =>
          let content := message.content.getD ""
          (⟨appendAssistant sessions2 sid content⟩, .ok { session_id := sid, response := content })
        | some fc =>
          -- args = json.loads(...) sits outside the try/except below
          match json_loads fc.arguments with
          | .error e => (⟨sessions2⟩, .error e)
          | .ok args =>
            match sm.call_tool fc.name args with
            | .ok result =>
              let sessions3 := updateSession sessions2 sid
                (fun ms => ms ++ [{ role := "function", content := Json.dumps result,
                                    name := some fc.name }])
              match llm (sessionMessages sessions3 sid) none with
              | .ok final =>
                let content := final.content.getD ""
                (⟨appendAssistant sessions3 sid content⟩,
                  .ok { session_id := sid, response := content,
                        function_call_name := some fc.name,
                        function_call_arguments := some args })
              | .error e =>
                -- the second completion sits inside the same try/except
                let content := "Error calling tool " ++ fc.name ++ ": " ++ e.toMessage
                (⟨appendAssistant sessions3 sid content⟩,
                  .ok { session_id := sid, response := content,
                        function_call_name := some fc.name,
                        function_call_arguments := some args })
            | .error e =>
              let content := "Error calling tool " ++ fc.name ++ ": " ++ e.toMessage
              (⟨appendAssistant sessions2 sid content⟩,
                .ok { session_id := sid, response := content,
                      function_call_name := some fc.name,
                      function_call_arguments := some args })

/-! ## Concrete fixtures (used by witnesses and counterexamples) -/

/-- A well-formed object schema for a two-argument `add` tool. -/
def addSchema : List (String × Json) :=
  [("type", Json.str "object"),
   ("properties", Json.obj [("a", Json.obj [("type", Json.str "number")]),
                            ("b", Json.obj [("type", Json.str "number")])]),
   ("required", Json.arr [Json.str "a", Json.str "b"])]

/-- The `add(a,b)` tool of the spec's `calc` scenario. -/
def toolA : ToolInfo :=
  { name := "add", description := "adds two numbers", input_schema := addSchema }

/-- A healthy provider exposing `add` and answering every invocation with `4`. -/
def srvA : MCPServer :=
  { listToolsResult := .ok [toolA]
    callToolResult := fun _ _ => .ok (Json.num 4) }

/-- A broken provider whose `list_tools` raises. -/
def srvBad : MCPServer :=
  { listToolsResult := .error (.generic "boom")
    callToolResult := fun _ _ => .error (.generic "boom") }

/-- A registry with the single healthy provider `calc`. -/
def smA : ServerManager := ⟨[("calc", srvA)]⟩

/-- A registry with a broken provider registered before a healthy one. -/
def smMixed : ServerManager := ⟨[("bad", srvBad), ("calc", srvA)]⟩

/-- A `ChatManager` holding one existing session `"s"` with a stale system
message. -/
def cmB : ChatManager :=
  ⟨[("s", [{ role := "system", content := "old system message" },
           { role := "user", content := "hello" },
           { role := "assistant", content := "hi there" }])]⟩

/-- A chat request addressed to the existing session `"s"`. -/
def reqB : ChatRequest := { session_id := some "s", message := "what is 2+2" }

/-- A `json.loads` oracle that rejects every input as invalid JSON. -/
def loadsFail : String → Except PyError Json :=
  fun _ => .error (.jsonDecode "Expecting value: line 1 column 1 (char 0)")

/-- A `json.loads` oracle returning the parsed `add` arguments. -/
def loadsAB : String → Except PyError Json :=
  fun _ => .ok (Json.obj [("a", Json.num 2), ("b", Json.num 2)])

/-! ## C6: duplicate-name add is rejected without touching the registry -/

/-- C6: adding a provider under a name already present fails with
`HTTPException(400, "Server already exists")`, the registry mapping is
returned unchanged, and no lifecycle action (`start` or `stop`) is attempted
on any server. -/
theorem add_server_duplicate (sm : ServerManager) (config : ServerConfig)
    (startOutcome : Except PyError MCPServer)
    (h : sm.servers.any (fun p => p.1 = config.name) = true) :
    sm.add_server config startOutcome
      = (sm, [], .error ⟨400, "Server already exists"⟩) := by
  simp [ServerManager.add_server, h]

/-- Witness for `add_server_duplicate`: re-adding `calc` to `smA`. -/
theorem add_server_duplicate_witness :
    smA.servers.any (fun p => p.1 = "calc") = true ∧
    smA.add_server { name := "calc", command := "npx", args := [] }
        (.error (.generic "spawn failed"))
      = (smA, [], .error ⟨400, "Server already exists"⟩) :=
  ⟨by decide,
   add_server_duplicate smA { name := "calc", command := "npx", args := [] }
     (.error (.generic "spawn failed")) (by decide)⟩

/-! ## C9: the HTTP endpoint rewraps every add failure as status 500 -/

/-- C9: whenever `ServerManager.add_server` fails — with any
`HTTPException e`, in particular the 400 duplicate-name rejection —
`api_add_server` surfaces it to the external caller as status 500 with
detail `"Error adding server: {e}"`; so a duplicate name (second conjunct)
reaches the caller with the same status code as a launch failure. -/
theorem api_add_server_rewraps_500 (sm : ServerManager) (conf : ServerConfig)
    (startOutcome : Except PyError MCPServer) :
    (∀ e : HTTPException, (sm.add_server conf startOutcome).2.2 = .error e →
      (api_add_server sm conf startOutcome).2
        = .error ⟨500, "Error adding server: " ++ (toString e.status_code ++ ": " ++ e.detail)⟩)
    ∧ (sm.servers.any (fun p => p.1 = conf.name) = true →
      (api_add_server sm conf startOutcome).2
        = .error ⟨500, "Error adding server: 400: Server already exists"⟩) := by
  constructor
  · intro e he
    unfold api_add_server
    rcases hadd : sm.add_server conf startOutcome with ⟨sm2, acts, res⟩
    rw [hadd] at he
    simp only at he
    cases res with
    | ok u => exact absurd he (by simp)
    | error e2 =>
      simp only [Except.error.injEq] at he
      subst he
      simp [PyError.toMessage]
  · intro hdup
    unfold api_add_server
    simp only [ServerManager.add_server, hdup, if_pos]
    simp [PyError.toMessage]
    rfl

/-- Witness for `api_add_server_rewraps_500`: the duplicate-name rejection of
re-adding `calc` reaches the HTTP caller as status 500. -/
theorem api_add_server_rewraps_500_witness :
    smA.servers.any (fun p => p.1 = "calc") = true ∧
    (api_add_server smA { name := "calc", command := "npx", args := [] }
        (.error (.generic "spawn failed"))).2
      = .error ⟨500, "Error adding server: 400: Server already exists"⟩ :=
  ⟨by decide,
   (api_add_server_rewraps_500 smA { name := "calc", command := "npx", args := [] }
     (.error (.generic "spawn failed"))).2 (by decide)⟩

/-! ## C1: aggregated catalog listing and broken providers -/

/-- Lemma: `collectTools` over all-healthy servers returns the concatenation of
their tool lists. -/
theorem collectTools_ok :
    ∀ servers : List (String × MCPServer),
    (∀ p ∈ servers, (p.2.listToolsResult).isOk = true) →
    collectTools servers
      = .ok ((servers.map (fun p => (p.2.listToolsResult).toOption.getD [])).flatten)
  | [], _ => rfl
  | (nm, srv) :: rest, h => by
    have hh := h (nm, srv) (List.mem_cons_self _ _)
    cases hl : srv.listToolsResult with
    | error e => rw [hl] at hh; simp [Except.isOk, Except.toBool] at hh
    | ok ts =>
      simp only [collectTools, hl]
      rw [collectTools_ok rest (fun p hp => h p (List.mem_cons_of_mem _ hp))]
      simp [hl, Except.toOption]

/-- Lemma: `collectTools` raises the first broken server's exception. -/
theorem collectTools_error :
    ∀ (pre : List (String × MCPServer)) (nm : String) (srv : MCPServer)
      (post : List (String × MCPServer)) (e : PyError),
    (∀ p ∈ pre, (p.2.listToolsResult).isOk = true) →
    srv.listToolsResult = .error e →
    collectTools (pre ++ (nm, srv) :: post) = .error e
  | [], nm, srv, post, e, _, herr => by simp [collectTools, herr]
  | (nm0, srv0) :: pre, nm, srv, post, e, hpre, herr => by
    have hh := hpre (nm0, srv0) (List.mem_cons_self _ _)
    cases hl : srv0.listToolsResult with
    | error e0 => rw [hl] at hh; simp [Except.isOk, Except.toBool] at hh
    | ok ts =>
      simp only [List.cons_append, collectTools, hl, List.append_eq]
      rw [collectTools_error pre nm srv post e
        (fun p hp => hpre p (List.mem_cons_of_mem _ hp)) herr]

/-- C1 fails on the code: with a broken provider (`list_tools` raises
`"boom"`) registered alongside a healthy one, the aggregated `list_tools`
call raises instead of succeeding with the healthy provider's tools — the
loop in `ServerManager.list_tools` has no per-provider exception handling. -/
theorem listToolsAll_broken_provider_cex :
    smMixed.listToolsAll = .error (.generic "boom")
    ∧ smMixed.listToolsAll ≠ .ok [toolA] := by
  constructor
  · rfl
  · intro h
    rw [show smMixed.listToolsAll = .error (.generic "boom") from rfl] at h
    exact Except.noConfusion h

/-- C1 amended: the aggregated `list_tools` call concatenates the tool lists
only when every provider lists successfully; a provider whose `list_tools`
raises (all providers before it being healthy) makes the whole aggregate call
fail with that provider's exception — it is not skipped. -/
theorem listToolsAll_amended (sm : ServerManager) :
    ((∀ p ∈ sm.servers, (p.2.listToolsResult).isOk = true) →
      sm.listToolsAll
        = .ok ((sm.servers.map (fun p => (p.2.listToolsResult).toOption.getD [])).flatten))
    ∧ (∀ (pre : List (String × MCPServer)) (nm : String) (srv : MCPServer)
        (post : List (String × MCPServer)) (e : PyError),
      sm.servers = pre ++ (nm, srv) :: post →
      (∀ p ∈ pre, (p.2.listToolsResult).isOk = true) →
      srv.listToolsResult = .error e →
      sm.listToolsAll = .error e) := by
  constructor
  · intro h
    exact collectTools_ok sm.servers h
  · intro pre nm srv post e hsplit hpre herr
    unfold ServerManager.listToolsAll
    rw [hsplit]
    exact collectTools_error pre nm srv post e hpre herr

/-- Witness for `listToolsAll_amended`: in `smMixed` the broken provider sits
first (empty healthy prefix), and the aggregate call raises its exception. -/
theorem listToolsAll_amended_witness :
    srvBad.listToolsResult = .error (.generic "boom")
    ∧ smMixed.listToolsAll = .error (.generic "boom") :=
  ⟨rfl,
   (listToolsAll_amended smMixed).2 [] "bad" srvBad [("calc", srvA)] (.generic "boom")
     rfl (by simp) rfl⟩

/-! ## C8: function-calling schema construction -/

/-- Spec-side characterisation of a well-formed object schema: "a dictionary
with `type` equal to `\"object\"` and a `properties` field". -/
def wellFormedObjectSchema (schema : List (String × Json)) : Prop :=
  schema.lookup "type" = some (Json.str "object")
  ∧ (schema.lookup "properties").isSome = true

instance (schema : List (String × Json)) : Decidable (wellFormedObjectSchema schema) :=
  inferInstanceAs (Decidable (_ ∧ _))

/-- The Boolean guard of the `functions_defs` loop decides exactly
`wellFormedObjectSchema`. -/
theorem buildFunctionDef_cond (s : List (String × Json)) :
    ((s.lookup "type" == some (Json.str "object"))
      && (s.lookup "properties").isSome) = true
      ↔ wellFormedObjectSchema s := by
  simp [wellFormedObjectSchema, Bool.and_eq_true, beq_iff_eq]

/-- C8: the `parameters` document sent upstream for a tool equals the
provider's input schema exactly when that schema is a well-formed object
schema, and otherwise equals the empty-object fallback — and in the malformed
case it is never the malformed original. -/
theorem buildFunctionDef_schema (t : ToolInfo) :
    (wellFormedObjectSchema t.input_schema →
      (buildFunctionDef t).parameters = Json.obj t.input_schema)
    ∧ (¬ wellFormedObjectSchema t.input_schema →
      (buildFunctionDef t).parameters = emptyObjectSchema
      ∧ (buildFunctionDef t).parameters ≠ Json.obj t.input_schema) := by
  constructor
  · intro hw
    have hb := (buildFunctionDef_cond t.input_schema).mpr hw
    simp [buildFunctionDef, hb]
  · intro hn
    have hb : ((t.input_schema.lookup "type" == some (Json.str "object"))
        && (t.input_schema.lookup "properties").isSome) = false := by
      rw [← Bool.not_eq_true, buildFunctionDef_cond]
      exact hn
    refine ⟨by simp [buildFunctionDef, hb], ?_⟩
    simp only [buildFunctionDef, hb]
    intro heq
    simp only [Bool.false_eq_true, if_false, emptyObjectSchema, Json.obj.injEq] at heq
    apply hn
    rw [← heq]
    constructor <;> rfl

/-- A tool whose input schema lacks the `properties` field (malformed). -/
def toolBroken : ToolInfo :=
  { name := "broken", description := "", input_schema := [("type", Json.str "object")] }

/-- Witness for `buildFunctionDef_schema`: a schema missing `properties` is
malformed and gets the fallback, never itself. -/
theorem buildFunctionDef_schema_witness :
    ¬ wellFormedObjectSchema toolBroken.input_schema
    ∧ (buildFunctionDef toolBroken).parameters = emptyObjectSchema
    ∧ (buildFunctionDef toolBroken).parameters ≠ Json.obj toolBroken.input_schema :=
  ⟨by decide, (buildFunctionDef_schema toolBroken).2 (by decide)⟩

/-! ## C5: tool routing (`resolve_and_invoke` / `ServerManager.call_tool`) -/

/-- Lemma: `callToolScan` raises the 404 when no scanned server owns the tool
(servers that fail to list count as not owning it). -/
theorem callToolScan_notFound (tool_name : String) (args : Json) :
    ∀ servers : List (String × MCPServer),
    (∀ p ∈ servers, ∀ ts, p.2.listToolsResult = .ok ts → ∀ t ∈ ts, t.name ≠ tool_name) →
    callToolScan tool_name args servers
      = .error (.http ⟨404, "Tool '" ++ tool_name ++ "' not found on any server"⟩)
  | [], _ => rfl
  | (nm, srv) :: rest, h => by
    simp only [callToolScan]
    cases hl : srv.listToolsResult with
    | error e =>
      exact callToolScan_notFound tool_name args rest
        (fun p hp => h p (List.mem_cons_of_mem _ hp))
    | ok ts =>
      have hnone : (ts.any fun t => t.name = tool_name) = false := by
        rw [List.any_eq_false]
        intro t ht
        simp only [decide_eq_true_eq]
        exact h (nm, srv) (List.mem_cons_self _ _) ts hl t ht
      simp only [hnone, Bool.false_eq_true, if_false]
      exact callToolScan_notFound tool_name args rest
        (fun p hp => h p (List.mem_cons_of_mem _ hp))

/-- Lemma: `callToolScan` delegates to the first server owning the tool, skipping
earlier servers that raise on listing or do not own it. -/
theorem callToolScan_delegate (tool_name : String) (args : Json) :
    ∀ (pre : List (String × MCPServer)) (nm : String) (srv : MCPServer)
      (post : List (String × MCPServer)) (ts : List ToolInfo),
    (∀ p ∈ pre, (∃ e, p.2.listToolsResult = .error e)
      ∨ (∃ ts0, p.2.listToolsResult = .ok ts0 ∧ ∀ t ∈ ts0, t.name ≠ tool_name)) →
    srv.listToolsResult = .ok ts →
    (∃ t ∈ ts, t.name = tool_name) →
    callToolScan tool_name args (pre ++ (nm, srv) :: post)
      = srv.callToolResult tool_name args
  | [], nm, srv, post, ts, _, hok, hmem => by
    simp only [List.nil_append, callToolScan, hok]
    have hany : (ts.any fun t => t.name = tool_name) = true := by
      rw [List.any_eq_true]
      obtain ⟨t, ht, hname⟩ := hmem
      exact ⟨t, ht, by simp [hname]⟩
    simp [hany]
  | (nm0, srv0) :: pre, nm, srv, post, ts, hpre, hok, hmem => by
    simp only [List.cons_append, callToolScan, List.append_eq]
    rcases hpre (nm0, srv0) (List.mem_cons_self _ _) with ⟨e, he⟩ | ⟨ts0, hts0, hno⟩
    · rw [he]
      exact callToolScan_delegate tool_name args pre nm srv post ts
        (fun p hp => hpre p (List.mem_cons_of_mem _ hp)) hok hmem
    · rw [hts0]
      have hnone : (ts0.any fun t => t.name = tool_name) = false := by
        rw [List.any_eq_false]
        intro t ht
        simp only [decide_eq_true_eq]
        exact hno t ht
      simp only [hnone, Bool.false_eq_true, if_false]
      exact callToolScan_delegate tool_name args pre nm srv post ts
        (fun p hp => hpre p (List.mem_cons_of_mem _ hp)) hok hmem

/-- C5: `call_tool` scans providers in registry (insertion) order; a provider
whose `list_tools` raises is skipped like one without the tool; the call is
delegated to the first scanned provider whose current tool list contains the
requested name; and when no provider owns the tool — the empty registry
included — it fails with the 404 "Tool ... not found on any server". -/
theorem call_tool_routing (sm : ServerManager) (tool_name : String) (args : Json) :
    ((∀ p ∈ sm.servers, ∀ ts, p.2.listToolsResult = .ok ts → ∀ t ∈ ts, t.name ≠ tool_name) →
      sm.call_tool tool_name args
        = .error (.http ⟨404, "Tool '" ++ tool_name ++ "' not found on any server"⟩))
    ∧ (∀ (pre : List (String × MCPServer)) (nm : String) (srv : MCPServer)
        (post : List (String × MCPServer)) (ts : List ToolInfo),
      sm.servers = pre ++ (nm, srv) :: post →
      (∀ p ∈ pre, (∃ e, p.2.listToolsResult = .error e)
        ∨ (∃ ts0, p.2.listToolsResult = .ok ts0 ∧ ∀ t ∈ ts0, t.name ≠ tool_name)) →
      srv.listToolsResult = .ok ts →
      (∃ t ∈ ts, t.name = tool_name) →
      sm.call_tool tool_name args = srv.callToolResult tool_name args) := by
  constructor
  · intro h
    exact callToolScan_notFound tool_name args sm.servers h
  · intro pre nm srv post ts hsplit hpre hok hmem
    unfold ServerManager.call_tool
    rw [hsplit]
    exact callToolScan_delegate tool_name args pre nm srv post ts hpre hok hmem

/-- Witness for `call_tool_routing`: the empty registry 404s, and in
`smMixed` the broken provider is skipped and `add` is routed to `calc`,
which returns `4`. -/
theorem call_tool_routing_witness :
    (ServerManager.call_tool ⟨[]⟩ "add" (Json.obj [])
      = .error (.http ⟨404, "Tool 'add' not found on any server"⟩))
    ∧ srvBad.listToolsResult = .error (.generic "boom")
    ∧ smMixed.call_tool "add" (Json.obj []) = .ok (Json.num 4) :=
  ⟨(call_tool_routing ⟨[]⟩ "add" (Json.obj [])).1 (by simp),
   rfl,
   ((call_tool_routing smMixed "add" (Json.obj [])).2
     [("bad", srvBad)] "calc" srvA [] [toolA] rfl
     (by
       intro p hp
       rw [List.mem_singleton] at hp
       subst hp
       exact Or.inl ⟨.generic "boom", rfl⟩)
     rfl ⟨toolA, by decide, rfl⟩).trans rfl⟩

/-! ## C2: hard failure before the tool step and the transcript -/

/-- An OpenAI collaborator that is unreachable: every completion call fails
with a generic (non-`BadRequestError`) exception. -/
def llmDownG : LLMOracle := fun _ _ => .error (.generic "LLM down")

/-- C2 fails on the code: with a healthy catalog and an unreachable LLM, the
chat call raises — but the session transcript has already been mutated: the
system message was overwritten with the fresh catalog text and the user
message was appended, and both mutations survive the failed call. -/
theorem chat_hard_failure_cex :
    (cmB.chat smA llmDownG loadsFail "fresh" reqB).2 = .error (.generic "LLM down")
    ∧ sessionMessages (cmB.chat smA llmDownG loadsFail "fresh" reqB).1.sessions "s"
      = [{ role := "system", content := systemMsg [toolA] },
         { role := "user", content := "hello" },
         { role := "assistant", content := "hi there" },
         { role := "user", content := "what is 2+2" }]
    ∧ (cmB.chat smA llmDownG loadsFail "fresh" reqB).1.sessions ≠ cmB.sessions := by
  refine ⟨rfl, rfl, ?_⟩
  intro hsame
  have h1 : sessionMessages (cmB.chat smA llmDownG loadsFail "fresh" reqB).1.sessions "s"
      = sessionMessages cmB.sessions "s" := by rw [hsame]
  rw [show sessionMessages (cmB.chat smA llmDownG loadsFail "fresh" reqB).1.sessions "s"
      = [{ role := "system", content := systemMsg [toolA] },
         { role := "user", content := "hello" },
         { role := "assistant", content := "hi there" },
         { role := "user", content := "what is 2+2" }] from rfl] at h1
  rw [show sessionMessages cmB.sessions "s"
      = [{ role := "system", content := "old system message" },
         { role := "user", content := "hello" },
         { role := "assistant", content := "hi there" }] from rfl] at h1
  simp at h1

/-- C2 amended: a hard failure of the LLM exchange (the first completion call
fails, and when the failure is the schema rejection the degraded retry fails
too) propagates as the chat call's failure, but the transcript is not left
unmodified: it keeps exactly the refreshed system message and the appended
user message for that turn (no assistant message is appended). -/
theorem chat_hard_failure_transcript (cm : ChatManager) (sm : ServerManager)
    (json_loads : String → Except PyError Json) (freshId : String)
    (req : ChatRequest) (e : PyError) (tools : List ToolInfo)
    (h : sm.listToolsAll = .ok tools) :
    cm.chat sm (fun _ _ => .error e) json_loads freshId req
      = (⟨sessionsAfterUser cm.sessions (req.session_id.getD freshId)
            (systemMsg tools) req.message⟩, .error e) := by
  unfold ChatManager.chat
  rw [h]
  cases e <;> simp

/-- Witness for `chat_hard_failure_transcript`: the unreachable-LLM scenario
on the existing session `"s"`. -/
theorem chat_hard_failure_transcript_witness :
    smA.listToolsAll = .ok [toolA]
    ∧ cmB.chat smA (fun _ _ => .error (.generic "LLM down")) loadsFail "fresh" reqB
      = (⟨sessionsAfterUser cmB.sessions "s" (systemMsg [toolA]) "what is 2+2"⟩,
         .error (.generic "LLM down")) :=
  ⟨rfl,
   chat_hard_failure_transcript cmB smA loadsFail "fresh" reqB
     (.generic "LLM down") [toolA] rfl⟩

/-! ## C4: the degraded retry is scoped to `BadRequestError` exactly -/

/-- C4: when the first completion call (made with the function schemas) fails,
`chat` retries once without any function schemas exactly when the failure is
the schema-rejection (`openai.BadRequestError`): (1) on such a failure, a
successful retry's plain text becomes the reply, with no tool name and no tool
arguments set; (2) on any other failure no retry is consulted — the failure
propagates even if a schema-free call would have succeeded; (3) when the
single retry also fails, its failure propagates (no further attempt). -/
theorem chat_schema_retry (cm : ChatManager) (sm : ServerManager) (llm : LLMOracle)
    (json_loads : String → Except PyError Json) (freshId : String) (req : ChatRequest)
    (tools : List ToolInfo) (sid : String) (msgs : List Message)
    (h : sm.listToolsAll = .ok tools)
    (hsid : sid = req.session_id.getD freshId)
    (hmsgs : msgs = sessionMessages
      (sessionsAfterUser cm.sessions sid (systemMsg tools) req.message) sid) :
    (∀ m r, llm msgs (some (tools.map buildFunctionDef)) = .error (.badRequest m) →
      llm msgs none = .ok r →
      (cm.chat sm llm json_loads freshId req).2
        = .ok { session_id := sid, response := r.content.getD "" })
    ∧ (∀ e r, llm msgs (some (tools.map buildFunctionDef)) = .error e →
      (∀ s, e ≠ .badRequest s) →
      llm msgs none = .ok r →
      (cm.chat sm llm json_loads freshId req).2 = .error e)
    ∧ (∀ m e2, llm msgs (some (tools.map buildFunctionDef)) = .error (.badRequest m) →
      llm msgs none = .error e2 →
      (cm.chat sm llm json_loads freshId req).2 = .error e2) := by
  subst hsid
  subst hmsgs
  refine ⟨?_, ?_, ?_⟩
  · intro m r h1 h2
    unfold ChatManager.chat
    rw [h]
    simp only []
    rw [h1, h2]
  · intro e r h1 hne h2
    unfold ChatManager.chat
    rw [h]
    simp only []
    rw [h1]
    cases e with
    | badRequest s => exact absurd rfl (hne s)
    | http e0 => rfl
    | jsonDecode m => rfl
    | generic m => rfl
  · intro m e2 h1 h2
    unfold ChatManager.chat
    rw [h]
    simp only []
    rw [h1, h2]

/-! ## Transcript lookup lemmas -/

/-- Updating a session's transcript is seen by a later lookup of that id. -/
theorem lookup_updateSession (sid : String) (f : List Message → List Message) :
    ∀ sessions : List (String × List Message),
    (updateSession sessions sid f).lookup sid = (sessions.lookup sid).map f
  | [] => rfl
  | (k, ms) :: rest => by
    by_cases hk : k = sid
    · subst hk
      have hstep : updateSession ((k, ms) :: rest) k f
          = (k, f ms) :: updateSession rest k f := by
        simp [updateSession]
      rw [hstep]
      simp [List.lookup]
    · have hne : (sid == k) = false := by
        simp [BEq.beq]
        exact fun he => hk he.symm
      simp only [updateSession, List.map_cons]
      rw [if_neg hk]
      simp only [List.lookup, hne]
      exact lookup_updateSession sid f rest

/-- A session id that `any` finds is one that `lookup` finds. -/
theorem lookup_some_of_any (sid : String) :
    ∀ sessions : List (String × List Message),
    sessions.any (fun p => p.1 = sid) = true →
    ∃ ms, sessions.lookup sid = some ms
  | [], h => by simp at h
  | (k, ms) :: rest, h => by
    by_cases hk : sid = k
    · exact ⟨ms, by simp [List.lookup, hk]⟩
    · have hne : (sid == k) = false := by
        simp [BEq.beq]
        exact hk
      have hrest : rest.any (fun p => p.1 = sid) = true := by
        simp only [List.any_cons, Bool.or_eq_true, decide_eq_true_eq] at h
        rcases h with h | h
        · exact absurd h.symm hk
        · simpa using h
      obtain ⟨ms0, hms0⟩ := lookup_some_of_any sid rest hrest
      exact ⟨ms0, by simp only [List.lookup, hne]; exact hms0⟩

/-- Appending a fresh entry to a map that lacks the id makes lookup find it. -/
theorem lookup_append_fresh (sid : String) (x : List Message) :
    ∀ sessions : List (String × List Message),
    sessions.any (fun p => p.1 = sid) = false →
    (sessions ++ [(sid, x)]).lookup sid = some x
  | [], _ => by simp [List.lookup]
  | (k, ms) :: rest, h => by
    simp only [List.any_cons, Bool.or_eq_false_iff, decide_eq_false_iff_not] at h
    have hne : (sid == k) = false := by
      simp [BEq.beq]
      exact fun he => h.1 he.symm
    simp only [List.cons_append, List.lookup, hne]
    exact lookup_append_fresh sid x rest h.2

/-- The seeding step always leaves the session id present. -/
theorem lookup_seedSessions (sessions : List (String × List Message))
    (sid sysm : String) :
    ∃ ms, (seedSessions sessions sid sysm).lookup sid = some ms := by
  unfold seedSessions
  by_cases hany : sessions.any (fun p => p.1 = sid) = true
  · rw [if_pos hany, lookup_updateSession]
    obtain ⟨ms, hms⟩ := lookup_some_of_any sid sessions hany
    exact ⟨refreshSystem sysm ms, by rw [hms]; rfl⟩
  · rw [if_neg hany]
    refine ⟨[{ role := "system", content := sysm }], ?_⟩
    have hf : sessions.any (fun p => p.1 = sid) = false := by
      cases h2 : sessions.any (fun p => p.1 = sid) with
      | false => rfl
      | true => exact absurd h2 hany
    exact lookup_append_fresh sid _ sessions hf

/-- After the seeding step and the user append, the transcript under `sid`
ends with the user message. -/
theorem sessionsAfterUser_getLast (sessions : List (String × List Message))
    (sid sysm userText : String) :
    (sessionMessages (sessionsAfterUser sessions sid sysm userText) sid).getLast?
      = some { role := "user", content := userText } := by
  unfold sessionsAfterUser sessionMessages
  rw [lookup_updateSession]
  obtain ⟨ms, hms⟩ := lookup_seedSessions sessions sid sysm
  rw [hms]
  simp [List.getLast?_concat]

/-! ## C3: which completion-call failures are hard failures -/

/-- The raw argument string the model returns when selecting `add(2, 2)`. -/
def addArgsRaw : String := "\x7b\"a\": 2, \"b\": 2\x7d"

/-- An LLM oracle that selects the `add` tool whenever function schemas are
passed, and is unreachable for any schema-free call. -/
def llmFcThenDown : LLMOracle := fun _ fns =>
  match fns with
  | some _ => .ok { function_call := some { name := "add", arguments := addArgsRaw } }
  | none => .error (.generic "LLM down on follow-up")

/-- C3 fails on the code: the second, follow-up completion call sits inside
the same `try`/`except` as the tool invocation, so its generic failure is
caught and silently converted into the reply content — the chat call
succeeds instead of surfacing the failure. -/
theorem chat_followup_failure_cex :
    (cmB.chat smA llmFcThenDown loadsAB "fresh" reqB).2
      = .ok { session_id := "s",
              response := "Error calling tool add: LLM down on follow-up",
              function_call_name := some "add",
              function_call_arguments := some (Json.obj [("a", Json.num 2), ("b", Json.num 2)]) } := rfl

/-- C3 amended: a generic (non-schema-rejection) failure of the first
completion call is a hard failure surfaced to the caller; but a failure of
the second, follow-up completion call issued after a successful tool
invocation is caught by the invocation handler and converted into the
"Error calling tool ..." reply content, the chat call succeeding. -/
theorem chat_completion_failure_scope (cm : ChatManager) (sm : ServerManager)
    (llm : LLMOracle) (json_loads : String → Except PyError Json)
    (freshId : String) (req : ChatRequest) (tools : List ToolInfo)
    (sid : String) (msgs : List Message)
    (h : sm.listToolsAll = .ok tools)
    (hsid : sid = req.session_id.getD freshId)
    (hmsgs : msgs = sessionMessages
      (sessionsAfterUser cm.sessions sid (systemMsg tools) req.message) sid) :
    (∀ e, llm msgs (some (tools.map buildFunctionDef)) = .error e →
      (∀ s, e ≠ .badRequest s) →
      (cm.chat sm llm json_loads freshId req).2 = .error e)
    ∧ (∀ (message : LLMMessage) (fc : FunctionCall) (args result : Json) (e : PyError),
      llm msgs (some (tools.map buildFunctionDef)) = .ok message →
      message.function_call = some fc →
      json_loads fc.arguments = .ok args →
      sm.call_tool fc.name args = .ok result →
      llm (sessionMessages (updateSession
          (sessionsAfterUser cm.sessions sid (systemMsg tools) req.message) sid
          (fun ms => ms ++ [{ role := "function", content := Json.dumps result,
                              name := some fc.name }])) sid) none = .error e →
      (cm.chat sm llm json_loads freshId req).2
        = .ok { session_id := sid,
                response := "Error calling tool " ++ fc.name ++ ": " ++ e.toMessage,
                function_call_name := some fc.name,
                function_call_arguments := some args }) := by
  subst hsid
  subst hmsgs
  constructor
  · intro e h1 hne
    unfold ChatManager.chat
    rw [h]
    simp only []
    rw [h1]
    cases e with
    | badRequest s => exact absurd rfl (hne s)
    | http e0 => rfl
    | jsonDecode m => rfl
    | generic m => rfl
  · intro message fc args result e h1 hfc hargs hcall h2
    unfold ChatManager.chat
    rw [h]
    simp only []
    rw [h1]
    simp only []
    rw [hfc]
    simp only []
    rw [hargs]
    simp only []
    rw [hcall]
    simp only []
    rw [h2]

/-- Witness for `chat_completion_failure_scope`: the follow-up failure
scenario of `chat_followup_failure_cex`, derived from the general theorem. -/
theorem chat_completion_failure_scope_witness :
    smA.call_tool "add" (Json.obj [("a", Json.num 2), ("b", Json.num 2)]) = .ok (Json.num 4)
    ∧ (cmB.chat smA llmFcThenDown loadsAB "backup" reqB).2
      = .ok { session_id := "s",
              response := "Error calling tool add: LLM down on follow-up",
              function_call_name := some "add",
              function_call_arguments := some (Json.obj [("a", Json.num 2), ("b", Json.num 2)]) } :=
  ⟨rfl,
   (chat_completion_failure_scope cmB smA llmFcThenDown loadsAB "backup" reqB [toolA] "s"
     (sessionMessages (sessionsAfterUser cmB.sessions "s" (systemMsg [toolA]) "what is 2+2") "s")
     rfl rfl rfl).2
     { function_call := some { name := "add", arguments := addArgsRaw } }
     { name := "add", arguments := addArgsRaw }
     (Json.obj [("a", Json.num 2), ("b", Json.num 2)]) (Json.num 4)
     (.generic "LLM down on follow-up")
     rfl rfl rfl rfl rfl⟩

/-- An LLM oracle that rejects the schema-bearing call with
`openai.BadRequestError` and answers the schema-free retry with plain text. -/
def llmBadThenOk : LLMOracle := fun _ fns =>
  match fns with
  | some _ => .error (.badRequest "Invalid schema for function add")
  | none => .ok { content := some "plain reply" }

/-- Witness for `chat_schema_retry`: the schema-rejection retry scenario. -/
theorem chat_schema_retry_witness :
    smA.listToolsAll = .ok [toolA]
    ∧ (cmB.chat smA llmBadThenOk loadsFail "fresh" reqB).2
      = .ok { session_id := "s", response := "plain reply" } :=
  ⟨rfl,
   (chat_schema_retry cmB smA llmBadThenOk loadsFail "fresh" reqB [toolA] "s"
     (sessionMessages (sessionsAfterUser cmB.sessions "s" (systemMsg [toolA]) "what is 2+2") "s")
     rfl rfl rfl).1 "Invalid schema for function add"
     { content := some "plain reply" } rfl rfl⟩

/-! ## C7: tool invocation failures become conversational content -/

/-- A provider exposing `add` whose invocations fail. -/
def srvFail : MCPServer :=
  { listToolsResult := .ok [toolA]
    callToolResult := fun _ _ => .error (.generic "connection lost") }

/-- A registry with the single failing provider `calc`. -/
def smFail : ServerManager := ⟨[("calc", srvFail)]⟩

/-- C7: when the model selects a tool and the registry invocation fails, the
chat call still succeeds; the reply is the synthesized error message embedding
the tool name and the failure reason, appended as the assistant message (and
no function-result message is appended); no second completion call is made —
the conclusion holds for every oracle with this first-call answer, whatever it
would reply to a follow-up. -/
theorem chat_invocation_failure_soft (cm : ChatManager) (sm : ServerManager)
    (llm : LLMOracle) (json_loads : String → Except PyError Json)
    (freshId : String) (req : ChatRequest) (tools : List ToolInfo)
    (sid : String) (msgs : List Message) (message : LLMMessage)
    (fc : FunctionCall) (args : Json) (e : PyError)
    (h : sm.listToolsAll = .ok tools)
    (hsid : sid = req.session_id.getD freshId)
    (hmsgs : msgs = sessionMessages
      (sessionsAfterUser cm.sessions sid (systemMsg tools) req.message) sid)
    (h1 : llm msgs (some (tools.map buildFunctionDef)) = .ok message)
    (hfc : message.function_call = some fc)
    (hargs : json_loads fc.arguments = .ok args)
    (hcall : sm.call_tool fc.name args = .error e) :
    cm.chat sm llm json_loads freshId req
      = (⟨appendAssistant (sessionsAfterUser cm.sessions sid (systemMsg tools) req.message)
            sid ("Error calling tool " ++ fc.name ++ ": " ++ e.toMessage)⟩,
         .ok { session_id := sid,
               response := "Error calling tool " ++ fc.name ++ ": " ++ e.toMessage,
               function_call_name := some fc.name,
               function_call_arguments := some args }) := by
  subst hsid
  subst hmsgs
  unfold ChatManager.chat
  rw [h]
  simp only []
  rw [h1]
  simp only []
  rw [hfc]
  simp only []
  rw [hargs]
  simp only []
  rw [hcall]

/-- Witness for `chat_invocation_failure_soft`: `add` is selected, the
provider's invocation raises `"connection lost"`, and the turn succeeds with
the synthesized error reply. -/
theorem chat_invocation_failure_soft_witness :
    smFail.call_tool "add" (Json.obj [("a", Json.num 2), ("b", Json.num 2)])
      = .error (.generic "connection lost")
    ∧ (cmB.chat smFail llmFcThenDown loadsAB "fresh" reqB).2
      = .ok { session_id := "s",
              response := "Error calling tool add: connection lost",
              function_call_name := some "add",
              function_call_arguments := some (Json.obj [("a", Json.num 2), ("b", Json.num 2)]) } :=
  ⟨rfl,
   congrArg Prod.snd
     (chat_invocation_failure_soft cmB smFail llmFcThenDown loadsAB "fresh" reqB [toolA] "s"
       (sessionMessages (sessionsAfterUser cmB.sessions "s" (systemMsg [toolA]) "what is 2+2") "s")
       { function_call := some { name := "add", arguments := addArgsRaw } }
       { name := "add", arguments := addArgsRaw }
       (Json.obj [("a", Json.num 2), ("b", Json.num 2)])
       (.generic "connection lost")
       rfl rfl rfl rfl rfl rfl rfl)⟩

/-! ## C10: unparsable function-call arguments fail the whole turn -/

/-- C10: when the model selects a tool but its raw argument string is not
valid JSON, the `json.loads` failure happens outside the invocation handler:
the whole chat call fails hard (the parse error escapes, not converted into
reply content), and by that point the user message is already the last entry
of the session transcript (which keeps exactly the system refresh and the
user append). -/
theorem chat_bad_arguments_hard (cm : ChatManager) (sm : ServerManager)
    (llm : LLMOracle) (json_loads : String → Except PyError Json)
    (freshId : String) (req : ChatRequest) (tools : List ToolInfo)
    (sid : String) (msgs : List Message) (message : LLMMessage)
    (fc : FunctionCall) (e : PyError)
    (h : sm.listToolsAll = .ok tools)
    (hsid : sid = req.session_id.getD freshId)
    (hmsgs : msgs = sessionMessages
      (sessionsAfterUser cm.sessions sid (systemMsg tools) req.message) sid)
    (h1 : llm msgs (some (tools.map buildFunctionDef)) = .ok message)
    (hfc : message.function_call = some fc)
    (hargs : json_loads fc.arguments = .error e) :
    cm.chat sm llm json_loads freshId req
      = (⟨sessionsAfterUser cm.sessions sid (systemMsg tools) req.message⟩, .error e)
    ∧ msgs.getLast? = some { role := "user", content := req.message } := by
  constructor
  · subst hsid
    subst hmsgs
    unfold ChatManager.chat
    rw [h]
    simp only []
    rw [h1]
    simp only []
    rw [hfc]
    simp only []
    rw [hargs]
  · rw [hmsgs]
    exact sessionsAfterUser_getLast cm.sessions sid (systemMsg tools) req.message

/-- Witness for `chat_bad_arguments_hard`: the model selects `add` with an
unparsable argument string, and the turn fails with the decode error. -/
theorem chat_bad_arguments_hard_witness :
    loadsFail addArgsRaw = .error (.jsonDecode "Expecting value: line 1 column 1 (char 0)")
    ∧ (cmB.chat smA llmFcThenDown loadsFail "fresh" reqB).2
      = .error (.jsonDecode "Expecting value: line 1 column 1 (char 0)")
    ∧ (sessionMessages (sessionsAfterUser cmB.sessions "s" (systemMsg [toolA]) "what is 2+2") "s").getLast?
      = some { role := "user", content := "what is 2+2" } :=
  ⟨rfl,
   congrArg Prod.snd
     ((chat_bad_arguments_hard cmB smA llmFcThenDown loadsFail "fresh" reqB [toolA] "s"
       (sessionMessages (sessionsAfterUser cmB.sessions "s" (systemMsg [toolA]) "what is 2+2") "s")
       { function_call := some { name := "add", arguments := addArgsRaw } }
       { name := "add", arguments := addArgsRaw }
       (.jsonDecode "Expecting value: line 1 column 1 (char 0)")
       rfl rfl rfl rfl rfl rfl).1),
   (chat_bad_arguments_hard cmB smA llmFcThenDown loadsFail "fresh" reqB [toolA] "s"
       (sessionMessages (sessionsAfterUser cmB.sessions "s" (systemMsg [toolA]) "what is 2+2") "s")
       { function_call := some { name := "add", arguments := addArgsRaw } }
       { name := "add", arguments := addArgsRaw }
       (.jsonDecode "Expecting value: line 1 column 1 (char 0)")
       rfl rfl rfl rfl rfl rfl).2⟩
